import Mathlib

/-!
# The Vuex store of `plantit/front_end/src/store/store.js`

`store.js` contains no algorithm of its own: it builds one `Vuex.Store` from

* a root state function, `state: () => ({ csrfToken: Cookies.get(axios.defaults.xsrfCookieName) })`,
* one getter, `csrfToken: state => state.csrfToken`,
* eight modules (`user`, `users`, `alerts`, `agents`, `datasets`, `workflows`,
  `submissions`, `notifications`), imported from files that are not part of this
  development, and
* one plugin, `createPersistedState({ storage: window.sessionStorage })`.

What the file does is therefore what these library calls do with the arguments the
file gives them.  The embedding below follows the calls in the order in which
`store.js` makes them:

1. `createPersistedState(options)` probes the storage (`assertStorage`);
2. `new Vuex.Store(options)` evaluates the root state function, installs the state
   of every module under the module's name, registers the module's mutation
   handlers, and runs the plugin;
3. the plugin reads the saved state (`getState`), merges it over the store's state
   (`deepmerge` with `arrayMerge` returning the saved array and `clone: false`),
   hands the result to `replaceState`, and subscribes to mutations;
4. `commit` runs the handlers registered for the type and, when they have
   returned, the subscribers; the plugin's subscriber writes
   `JSON.stringify(state)` under the key `vuex`.

The library functions embedded are the constructor and `commit` of Vuex 3,
`createPersistedState` of `vuex-persistedstate` with its defaults (`key`, `getState`,
`setState`, `reducer`, `filter`, `assertStorage`), `deepmerge` as that plugin calls
it, and `Cookies.get` of `js-cookie`.

Modelling decisions, each local to one definition and repeated there:

* a JavaScript object is a finite map from property names to values, represented by
  its lookup function; property order plays no role in any statement;
* the text kept in a storage cell is represented by what `JSON.parse` makes of it;
* the eight modules are parameters: their declared state, whether they are
  namespaced, and their mutation handlers are arbitrary;
* a number is a double: finite (given by the rational it denotes), negative zero,
  NaN or an infinity;
* whether the storage medium accepts a write is decided by the environment and is
  an explicit argument;
* a mutation handler may throw, and it changes its module's sub-state in place.
-/

namespace Plantit

/-! ## JavaScript values -/

/-- A JavaScript number.  A finite double other than negative zero is given by the
rational number it denotes. -/
inductive JsNum where
  | finite (value : ℚ)
  | negZero
  | nan
  | infinity (negative : Bool)
  deriving DecidableEq

/-- JavaScript values that can sit in the state tree.  An object is given by its
own-property lookup: `fields k = none` when the object has no own property `k`. -/
inductive JsVal where
  | undefined
  | null
  | bool (b : Bool)
  | num (n : JsNum)
  | str (s : String)
  | arr (items : List JsVal)
  | obj (fields : String → Option JsVal)

namespace JsVal

/-- The object literal with the listed properties (an earlier entry for a name
takes precedence over a later one). -/
def ofFields (fs : List (String × JsVal)) : JsVal :=
  obj (fun k => fs.lookup k)

/-- `Array.isArray(v)`. -/
def isArray : JsVal → Bool
  | arr _ => true
  | _ => false

/-- Whether `v` is a plain (non-array) object. -/
def isObject : JsVal → Bool
  | obj _ => true
  | _ => false

/-- `typeof v === "object"`: true of `null`, arrays and objects. -/
def typeofObject : JsVal → Bool
  | null => true
  | arr _ => true
  | obj _ => true
  | _ => false

/-- `v === null`. -/
def isNull : JsVal → Bool
  | null => true
  | _ => false

/-- `isMergeableObject(v)` of `deepmerge`: a non-null object (array or plain). -/
def isMergeable : JsVal → Bool
  | arr _ => true
  | obj _ => true
  | _ => false

/-- Strings, booleans, `null` and the finite numbers other than negative zero: the
primitive values `JSON.stringify` followed by `JSON.parse` gives back unchanged. -/
def isJsonPrimitive : JsVal → Bool
  | null => true
  | bool _ => true
  | num (JsNum.finite _) => true
  | str _ => true
  | _ => false

/-- The own property `k` of `v`, if `v` is a plain object that has one.  (Named
properties of arrays and primitives are not represented.) -/
def own (k : String) : JsVal → Option JsVal
  | obj f => f k
  | _ => none

/-- Property read `v.k` (or `v[k]`): `undefined` when there is no such property. -/
def prop (k : String) (v : JsVal) : JsVal :=
  (v.own k).getD undefined

/-- Property write `o[k] = v` (`Vue.set(o, k, v)`) on a plain object.  On anything
else the write is not represented and the value is returned as it is. -/
def set : JsVal → String → JsVal → JsVal
  | obj f, k, v => obj (fun j => if j = k then some v else f j)
  | other, _, _ => other

/-- Follows a path of property names through nested plain objects. -/
def lookupPath : List String → JsVal → Option JsVal
  | [], v => some v
  | k :: ks, obj f =>
    match f k with
    | some v => lookupPath ks v
    | none => none
  | _ :: _, _ => none

/-- The property names that `key in o` finds on every object of the state tree
without their being own enumerable properties of it: the properties of
`Object.prototype`, and `__ob__`, the non-enumerable property that the observer of
Vue 2 defines on every object of the state. -/
def hiddenProperties : List String :=
  ["constructor", "__defineGetter__", "__defineSetter__", "hasOwnProperty",
   "__lookupGetter__", "__lookupSetter__", "isPrototypeOf", "propertyIsEnumerable",
   "toString", "valueOf", "__proto__", "toLocaleString", "__ob__"]

/-- `propertyIsUnsafe(target, key)` of `deepmerge`:
`propertyIsOnObject(target, key) && !(hasOwnProperty(key) && propertyIsEnumerable(key))`.
On an object it holds of the hidden names that are not own properties; on a
primitive, `key in target` throws and `propertyIsOnObject` catches the error and
answers false.  (`mergeObject` is not called with an array as target.) -/
def propertyIsUnsafe (k : String) : JsVal → Bool
  | obj f => hiddenProperties.contains k && (f k).isNone
  | _ => false

mutual
/-- The call `merge(target, source, { arrayMerge: (store, saved) => saved, clone: false })`
of the `deepmerge` package, as the persistence plugin makes it:
* when exactly one of the two is an array the source is returned;
* when both are arrays `arrayMerge` returns the saved (source) array;
* otherwise `mergeObject`: the result has the own properties of the target (when
  the target is an object) and those of the source that are not unsafe, a source
  property being merged recursively when the target has the property too and the
  source value is a non-null object, and copied otherwise.
Callers pass only arrays and objects as source (the guard of the plugin and the
`isMergeableObject` test of the recursion); the last equation is never reached. -/
def deepmerge (target : JsVal) : JsVal → JsVal
  | arr xs => arr xs
  | obj f =>
    if target.isArray then obj f
    else obj (fun k => mergeProperty (target.propertyIsUnsafe k) (target.own k) (f k))
  | v => v
/-- One property of `mergeObject`: `skip` is `propertyIsUnsafe(target, key)`, `t` is
the target's own property, the last argument the source's.  A source property that
is unsafe is skipped. -/
def mergeProperty (skip : Bool) (t : Option JsVal) : Option JsVal → Option JsVal
  | none => t
  | some v =>
    if skip then t
    else
      match t with
      | some tv => if v.isMergeable then some (deepmerge tv v) else some v
      | none => some v
end

mutual
/-- The value `JSON.parse(JSON.stringify(v))` for a value `v` other than
`undefined`: object properties whose value is `undefined` are left out, array
elements that are `undefined` become `null`, NaN and the infinities are written as
`null`, and negative zero is written as `0`. -/
def jsonImage : JsVal → JsVal
  | arr xs => arr (jsonItems xs)
  | obj f => obj (fun k => jsonField (f k))
  | num (JsNum.finite q) => num (JsNum.finite q)
  | num JsNum.negZero => num (JsNum.finite 0)
  | num _ => null
  | v => v
/-- Serialization of the elements of an array. -/
def jsonItems : List JsVal → List JsVal
  | [] => []
  | x :: xs =>
    (match x with
      | undefined => null
      | _ => jsonImage x) :: jsonItems xs
/-- Serialization of one object property. -/
def jsonField : Option JsVal → Option JsVal
  | none => none
  | some undefined => none
  | some v => some (jsonImage v)
end

end JsVal

open JsVal

/-! ## The environment: cookies and session storage -/

/-- The cookies of the document: name and (decoded) value. -/
abbrev CookieJar := List (String × String)

/-- `Cookies.get(name)` of `js-cookie`: the value of the cookie, or `undefined`. -/
def Cookies.get (jar : CookieJar) (name : String) : JsVal :=
  match jar.lookup name with
  | some v => str v
  | none => undefined

/-- Exceptions: the one thrown by the storage medium when it refuses a write, and
whatever the code of a mutation handler throws. -/
inductive JsError where
  | quotaExceeded
  | thrownByHandler (message : String)
  deriving DecidableEq, Repr

/-- The string held in one storage cell, represented by what `JSON.parse` makes of
it: `text raw` is a string that is not JSON text (parsing it throws), `json v` is
JSON text denoting the value `v`. -/
inductive Cell where
  | text (raw : String)
  | json (value : JsVal)

/-- `JSON.stringify(v)` as it ends up in a storage cell.  For `undefined` the call
returns `undefined`, which `setItem` stores as the string "undefined". -/
def JSON.stringify : JsVal → Cell
  | undefined => Cell.text "undefined"
  | v => Cell.json (jsonImage v)

/-- `window.sessionStorage`: the cell stored under each key, if any. -/
abbrev Storage := String → Option Cell

/-- `storage.setItem(k, c)`.  The medium may refuse the write (quota exceeded,
storage disabled); `accepts` is the environment's decision. -/
def Storage.setItem (accepts : Bool) (s : Storage) (k : String) (c : Cell) :
    Except JsError Storage :=
  if accepts then Except.ok (fun j => if j = k then some c else s j)
  else Except.error JsError.quotaExceeded

/-- `storage.removeItem(k)`. -/
def Storage.removeItem (s : Storage) (k : String) : Storage :=
  fun j => if j = k then none else s j

/-- The default key of the persistence plugin (`options.key || "vuex"`). -/
def persistKey : String := "vuex"

/-- `getState(key, storage)` of the persistence plugin: `getItem` gives `null` for
a missing key, which is returned as it is; a string is parsed, and a parse error is
caught and gives `undefined`. -/
def getState (key : String) (storage : Storage) : JsVal :=
  match storage key with
  | none => null
  | some (Cell.text _) => undefined
  | some (Cell.json v) => v

/-- `assertStorage(storage)`, run by `createPersistedState(options)`:
`storage.setItem("@@", 1); storage.removeItem("@@")`.  A refused write throws. -/
def assertStorage (accepts : Bool) (storage : Storage) : Except JsError Storage :=
  match storage.setItem accepts "@@" (Cell.json (num (JsNum.finite 1))) with
  | Except.ok s => Except.ok (s.removeItem "@@")
  | Except.error e => Except.error e

/-! ## Modules -/

/-- What running a mutation handler gives: the module's sub-state as the handler
left it, and the exception the handler threw, if it threw. -/
structure Outcome where
  state : JsVal
  thrown : Option JsError

/-- A mutation handler: from the module's sub-state and the payload to its outcome.
Vuex calls a handler of a module with the sub-state found under the module's name
(`handler.call(store, local.state, payload)`); what the code of a handler could
reach through other references is not represented. -/
abbrev Handler := JsVal → JsVal → Outcome

/-- What the store takes from a module imported by `store.js`: whether it is
namespaced, its initial state, and its mutation handlers by key.  The module files
are not part of this development, so every field is arbitrary. -/
structure Module where
  namespaced : Bool
  state : JsVal
  mutations : List (String × Handler)

/-- The `modules` option of `store.js` (lines 29 to 38). -/
structure Modules where
  user : Module
  users : Module
  alerts : Module
  agents : Module
  datasets : Module
  workflows : Module
  submissions : Module
  notifications : Module

/-- The modules with the names under which `store.js` registers them, in the order
of the file. -/
def Modules.entries (m : Modules) : List (String × Module) :=
  [("user", m.user), ("users", m.users), ("alerts", m.alerts), ("agents", m.agents),
   ("datasets", m.datasets), ("workflows", m.workflows),
   ("submissions", m.submissions), ("notifications", m.notifications)]

/-- The names of the registered modules. -/
def moduleNames : List String :=
  ["user", "users", "alerts", "agents", "datasets", "workflows", "submissions",
   "notifications"]

/-- The root state function of `store.js` (lines 23 to 25). -/
def state (jar : CookieJar) (xsrfCookieName : String) : JsVal :=
  ofFields [("csrfToken", Cookies.get jar xsrfCookieName)]

/-- `installModule` for the children of the root:
`Vue.set(parentState, moduleName, module.state)` for each module in turn. -/
def installModules : List (String × Module) → JsVal → JsVal
  | [], st => st
  | (n, m) :: rest, st => installModules rest (st.set n m.state)

/-- The state of the store before any plugin has run. -/
def declaredState (jar : CookieJar) (xsrfCookieName : String) (mods : Modules) : JsVal :=
  installModules mods.entries (state jar xsrfCookieName)

/-- A registered mutation: the type under which it is committed, the module that
owns it, and its handler. -/
structure Registered where
  type : String
  owner : String
  handler : Handler

/-- `registerMutation` for the mutations of one module: the type is the key,
preceded by the module name and a slash when the module is namespaced. -/
def moduleMutations (name : String) (m : Module) : List Registered :=
  m.mutations.map (fun kh =>
    Registered.mk ((if m.namespaced then name ++ "/" else "") ++ kh.1) name kh.2)

/-- All registered mutations.  The root of `store.js` declares none of its own. -/
def registerMutations : List (String × Module) → List Registered
  | [] => []
  | (n, m) :: rest => moduleMutations n m ++ registerMutations rest

/-! ## The store -/

/-- The store at run time: its registered mutations, its state tree, and the
session storage its plugin writes to. -/
structure Store where
  mutations : List Registered
  state : JsVal
  storage : Storage

/-- What `store.js` reads when it is evaluated: the cookies of the document,
`axios.defaults.xsrfCookieName`, the eight imported modules, the content of
`window.sessionStorage`, and whether the storage accepts the probe write of
`createPersistedState`. -/
structure Env where
  cookies : CookieJar
  xsrfCookieName : String
  modules : Modules
  sessionStorage : Storage
  probeAccepted : Bool

/-- The plugin applied to the new store: when the saved state is a non-null object
it is merged over the state and the result replaces the state. -/
def restoreState (state saved : JsVal) : JsVal :=
  if saved.typeofObject && !saved.isNull then deepmerge state saved else state

/-- The store built from the environment once the storage probe has left `storage`. -/
def initialStore (env : Env) (storage : Storage) : Store :=
  Store.mk (registerMutations env.modules.entries)
    (restoreState (declaredState env.cookies env.xsrfCookieName env.modules)
      (getState persistKey storage))
    storage

/-- Evaluation of `store.js`: `createPersistedState` (which probes the storage and
may throw), then `new Vuex.Store`. -/
def store (env : Env) : Except JsError Store :=
  match assertStorage env.probeAccepted env.sessionStorage with
  | Except.ok storage => Except.ok (initialStore env storage)
  | Except.error e => Except.error e

/-- The getter `csrfToken: state => state.csrfToken` (line 27). -/
def csrfToken (s : Store) : JsVal :=
  s.state.prop "csrfToken"

/-- The handlers registered under a mutation type (`this._mutations[type]`). -/
def Store.entry (s : Store) (type : String) : List Registered :=
  s.mutations.filter (fun r => r.type == type)

/-- The effect of a handler on the state tree.  The handler is given the value found
under its module's name and changes it in place: an object stays an object and an
array an array, with the content the handler left; a value that is not an object
or an array cannot be changed through the reference, and no property is added to
the root. -/
def writeBack (st : JsVal) (owner : String) (after : JsVal) : JsVal :=
  match st.own owner, after with
  | some (obj _), obj g => st.set owner (obj g)
  | some (arr _), arr ys => st.set owner (arr ys)
  | _, _ => st

/-- Runs handlers in order (`entry.forEach(handler => handler(payload))`), each on
the sub-state of its own module.  A handler that throws ends the loop; what it and
the handlers before it changed stays changed.  The second component is the
exception thrown, if any. -/
def runHandlers (payload : JsVal) : List Registered → JsVal → JsVal × Option JsError
  | [], st => (st, none)
  | r :: rest, st =>
    match (r.handler (st.prop r.owner) payload).thrown with
    | some e => (writeBack st r.owner (r.handler (st.prop r.owner) payload).state, some e)
    | none =>
      runHandlers payload rest
        (writeBack st r.owner (r.handler (st.prop r.owner) payload).state)

/-- `store.commit(type, payload)`.  An unknown type is reported on the console and
nothing else happens.  Otherwise the handlers run; when one throws, `commit` throws
and the subscribers are not run.  When the handlers have returned, the subscriber
of the persistence plugin writes the serialized state under `persistKey`; a refused
write throws out of `commit`, after the state has changed.  The second component
is the error thrown, if any. -/
def commit (accepts : Bool) (s : Store) (type : String) (payload : JsVal) :
    Store × Option JsError :=
  match s.entry type with
  | [] => (s, none)
  | r :: rest =>
    match runHandlers payload (r :: rest) s.state with
    | (state1, some e) => (Store.mk s.mutations state1 s.storage, some e)
    | (state1, none) =>
      match s.storage.setItem accepts persistKey (JSON.stringify state1) with
      | Except.ok storage1 => (Store.mk s.mutations state1 storage1, none)
      | Except.error e => (Store.mk s.mutations state1 s.storage, some e)

/-- One call of `commit` together with the environment's decision on its write. -/
structure Commit where
  accepts : Bool
  type : String
  payload : JsVal

/-- A sequence of commits; an error thrown by one does not stop the caller from
committing again. -/
def commitAll : List Commit → Store → Store
  | [], s => s
  | c :: cs, s => commitAll cs (commit c.accepts s c.type c.payload).1

/-- Whether the saved state read at construction decides the root `csrfToken`: an
array replaces the whole state tree, an object replaces the properties it has. -/
def snapshotSetsToken : JsVal → Bool
  | arr _ => true
  | obj f => (f "csrfToken").isSome
  | _ => false

/-! ## Concrete modules and environments used to instantiate the statements -/

namespace Sample

/-- The statement `state[k] = payload` of a handler: on an object it sets the
property; on `undefined`, `null` and the other primitives it throws a `TypeError`
(module code is strict); a named property written on an array is not represented. -/
def assign (k : String) : Handler :=
  fun st payload =>
    match st with
    | obj f => Outcome.mk ((obj f).set k payload) none
    | arr xs => Outcome.mk (arr xs) none
    | other => Outcome.mk other (some (JsError.thrownByHandler "TypeError"))

/-- A module with no state properties and no mutations. -/
def emptyModule : Module :=
  Module.mk true (ofFields []) []

/-- A namespaced module with one state property and one mutation that assigns the
payload to it. -/
def userModule : Module :=
  Module.mk true (ofFields [("profile", null)])
    [("setProfile", assign "profile")]

/-- A module whose state holds a list and whose mutation replaces the list. -/
def alertsModule : Module :=
  Module.mk true (ofFields [("alerts", arr [])])
    [("setAll", assign "alerts")]

/-- Eight modules for the eight names. -/
def modules : Modules :=
  Modules.mk userModule emptyModule alertsModule emptyModule emptyModule emptyModule
    emptyModule emptyModule

/-- Two modules that are not namespaced and declare a mutation under the same key:
`reset` clears the profile of `user` and the list of `users`. -/
def sharedModules : Modules :=
  Modules.mk
    (Module.mk false (ofFields [("profile", str "p")])
      [("reset", fun st _ => assign "profile" st null)])
    (Module.mk false (ofFields [("list", arr [str "a"])])
      [("reset", fun st _ => assign "list" st (arr []))])
    emptyModule emptyModule emptyModule emptyModule emptyModule emptyModule

/-- A session storage with nothing in it. -/
def emptyStorage : Storage := fun _ => none

/-- A session storage holding `cell` under the key of the plugin. -/
def storageWith (cell : Cell) : Storage :=
  fun k => if k = persistKey then some cell else none

/-- The cookie `csrftoken=abc`, looked up under the name `csrftoken`. -/
def env (storage : Storage) : Env :=
  Env.mk [("csrftoken", "abc")] "csrftoken" modules storage true

/-- The same environment with the cookie `csrftoken=def`. -/
def otherEnv (storage : Storage) : Env :=
  Env.mk [("csrftoken", "def")] "csrftoken" modules storage true

/-- The environment of `env` with the modules of `sharedModules`. -/
def sharedEnv : Env :=
  Env.mk [("csrftoken", "abc")] "csrftoken" sharedModules emptyStorage true

/-- The store constructed in `sharedEnv`. -/
def shared : Store :=
  initialStore sharedEnv emptyStorage

/-- The store constructed in `env emptyStorage`. -/
def fresh : Store :=
  initialStore (env emptyStorage) emptyStorage

/-- The sample store after `alerts/setAll` has been committed with a list whose only
element is `undefined`, the write being accepted. -/
def afterAlert : Store :=
  (commit true fresh "alerts/setAll" (arr [undefined])).1

/-- A snapshot that has a profile for `user` and nothing else. -/
def profileSnapshot : JsVal :=
  ofFields [("user", ofFields [("profile", str "p")])]

end Sample


/-! ## Auxiliary facts -/

theorem own_set_of_ne (k j : String) (v st : JsVal) (h : k ≠ j) :
    (st.set j v).own k = st.own k := by
  cases st <;> simp [JsVal.set, JsVal.own, h]

theorem own_set_self (k : String) (v : JsVal) (f : String → Option JsVal) :
    ((obj f).set k v).own k = some v := by
  simp [JsVal.set, JsVal.own]

theorem isObject_set (k : String) (v st : JsVal) :
    (st.set k v).isObject = st.isObject := by
  cases st <;> rfl

theorem isObject_installModules (l : List (String × Module)) (st : JsVal) :
    (installModules l st).isObject = st.isObject := by
  induction l generalizing st with
  | nil => rfl
  | cons a l ih =>
    obtain ⟨n, m⟩ := a
    simp [installModules, ih, isObject_set]

theorem own_installModules_of_not_mem (k : String) (l : List (String × Module))
    (st : JsVal) (h : k ∉ l.map Prod.fst) :
    (installModules l st).own k = st.own k := by
  induction l generalizing st with
  | nil => rfl
  | cons a l ih =>
    obtain ⟨n, m⟩ := a
    simp only [List.map_cons, List.mem_cons, not_or] at h
    simp only [installModules]
    rw [ih _ h.2, own_set_of_ne k n _ _ h.1]

theorem entries_names (mods : Modules) : mods.entries.map Prod.fst = moduleNames := rfl

theorem declaredState_isObject (jar : CookieJar) (name : String) (mods : Modules) :
    (declaredState jar name mods).isObject = true := by
  unfold declaredState
  rw [isObject_installModules]
  rfl

theorem declaredState_own_csrfToken (jar : CookieJar) (name : String) (mods : Modules) :
    (declaredState jar name mods).own "csrfToken" = some (Cookies.get jar name) := by
  unfold declaredState
  rw [own_installModules_of_not_mem _ _ _ (by rw [entries_names]; decide)]
  simp [state, ofFields, JsVal.own, List.lookup]

/-- The probe of the storage leaves every key other than its own as it was. -/
theorem assertStorage_ok (accepts : Bool) (storage storage1 : Storage)
    (h : assertStorage accepts storage = Except.ok storage1) :
    accepts = true ∧ ∀ k, k ≠ "@@" → storage1 k = storage k := by
  cases accepts with
  | false => simp [assertStorage, Storage.setItem] at h
  | true =>
    simp only [assertStorage, Storage.setItem, if_true, Except.ok.injEq] at h
    refine ⟨rfl, fun k hk => ?_⟩
    subst h
    simp [Storage.removeItem, hk]

theorem getState_congr (k : String) (s1 s2 : Storage) (h : s1 k = s2 k) :
    getState k s1 = getState k s2 := by
  simp [getState, h]

/-- What a successful construction yields. -/
theorem construct_ok (env : Env) (s : Store) (h : store env = Except.ok s) :
    env.probeAccepted = true ∧
    s.mutations = registerMutations env.modules.entries ∧
    s.state = restoreState (declaredState env.cookies env.xsrfCookieName env.modules)
      (getState persistKey env.sessionStorage) ∧
    s.storage persistKey = env.sessionStorage persistKey := by
  unfold store at h
  cases hp : assertStorage env.probeAccepted env.sessionStorage with
  | error e => simp [hp] at h
  | ok storage1 =>
    simp only [hp, Except.ok.injEq] at h
    obtain ⟨hacc, hkeep⟩ := assertStorage_ok _ _ _ hp
    have hk : storage1 persistKey = env.sessionStorage persistKey :=
      hkeep persistKey (by decide)
    subst h
    exact ⟨hacc, rfl, by simp [initialStore, getState_congr _ _ _ hk], hk⟩

/-- Construction succeeds whenever the storage accepts the probe. -/
theorem construct_of_probe (env : Env) (h : env.probeAccepted = true) :
    ∃ s, store env = Except.ok s := by
  simp [store, assertStorage, Storage.setItem, h]

/-- With a storage that accepts the probe and holds nothing under the probe's key,
construction returns the store built over the storage as it is. -/
theorem construct_eq_of_clean (env : Env) (hp : env.probeAccepted = true)
    (hc : env.sessionStorage "@@" = none) :
    store env = Except.ok (initialStore env env.sessionStorage) := by
  simp only [store, assertStorage, Storage.setItem, hp, if_true, Except.ok.injEq]
  congr 1
  funext k
  by_cases hk : k = "@@"
  · subst hk; simp [Storage.removeItem, hc]
  · simp [Storage.removeItem, hk]

theorem propertyIsUnsafe_of_own (k : String) (t d : JsVal) (h : t.own k = some d) :
    t.propertyIsUnsafe k = false := by
  cases t <;> simp_all [JsVal.propertyIsUnsafe, JsVal.own]

theorem propertyIsUnsafe_of_not_hidden (k : String) (t : JsVal)
    (h : hiddenProperties.contains k = false) : t.propertyIsUnsafe k = false := by
  cases t with
  | obj f => simp only [JsVal.propertyIsUnsafe, h, Bool.false_and]
  | _ => rfl

theorem propertyIsUnsafe_of_not_isObject (k : String) (t : JsVal)
    (h : t.isObject = false) : t.propertyIsUnsafe k = false := by
  cases t <;> simp_all [JsVal.propertyIsUnsafe, JsVal.isObject]

theorem own_of_propertyIsUnsafe (k : String) (t : JsVal)
    (h : t.propertyIsUnsafe k = true) : t.own k = none := by
  cases t <;> simp_all [JsVal.propertyIsUnsafe, JsVal.own]

theorem own_of_not_isObject (k : String) (t : JsVal) (h : t.isObject = false) :
    t.own k = none := by
  cases t <;> simp_all [JsVal.own, JsVal.isObject]

theorem mergeProperty_none_right (skip : Bool) (t : Option JsVal) :
    mergeProperty skip t none = t := by
  simp [mergeProperty]

theorem mergeProperty_skip (t : Option JsVal) (x : Option JsVal) :
    mergeProperty true t x = t := by
  cases x <;> simp [mergeProperty]

theorem mergeProperty_none_left (x : Option JsVal) : mergeProperty false none x = x := by
  cases x <;> simp [mergeProperty]

theorem mergeProperty_some_some (tv w : JsVal) :
    mergeProperty false (some tv) (some w) =
      if w.isMergeable then some (deepmerge tv w) else some w := by
  simp [mergeProperty]

/-- Merging over a target that is a primitive gives the source. -/
theorem deepmerge_of_not_isMergeable (t v : JsVal) (ht : t.isMergeable = false)
    (hv : v.isMergeable = true) : deepmerge t v = v := by
  have hobj : t.isObject = false := by
    cases t <;> simp_all [JsVal.isMergeable, JsVal.isObject]
  have harr : t.isArray = false := by
    cases t <;> simp_all [JsVal.isMergeable, JsVal.isArray]
  cases v with
  | arr xs => simp [deepmerge]
  | obj f =>
    simp only [deepmerge, harr]
    simp [propertyIsUnsafe_of_not_isObject _ t hobj, own_of_not_isObject _ t hobj,
      mergeProperty_none_left]
  | undefined => simp [JsVal.isMergeable] at hv
  | null => simp [JsVal.isMergeable] at hv
  | bool b => simp [JsVal.isMergeable] at hv
  | num n => simp [JsVal.isMergeable] at hv
  | str s => simp [JsVal.isMergeable] at hv

theorem cookie_isMergeable (jar : CookieJar) (name : String) :
    (Cookies.get jar name).isMergeable = false := by
  unfold Cookies.get; split <;> rfl

theorem own_set_self_of_isObject (k : String) (v st : JsVal) (h : st.isObject = true) :
    (st.set k v).own k = some v := by
  cases st with
  | obj f => exact own_set_self k v f
  | _ => simp [JsVal.isObject] at h

theorem own_installModules_of_mem (l : List (String × Module))
    (hnd : (l.map Prod.fst).Nodup) (st : JsVal) (hobj : st.isObject = true)
    (n : String) (m : Module) (h : (n, m) ∈ l) :
    (installModules l st).own n = some m.state := by
  induction l generalizing st with
  | nil => simp at h
  | cons a l ih =>
    obtain ⟨n1, m1⟩ := a
    simp only [List.map_cons, List.nodup_cons] at hnd
    simp only [installModules]
    rcases List.mem_cons.1 h with heq | hmem
    · obtain ⟨rfl, rfl⟩ := Prod.mk.inj heq
      rw [own_installModules_of_not_mem _ _ _ hnd.1]
      exact own_set_self_of_isObject _ _ _ hobj
    · exact ih hnd.2 _ (by rw [isObject_set]; exact hobj) hmem

theorem isArray_of_isObject (v : JsVal) (h : v.isObject = true) : v.isArray = false := by
  cases v with
  | obj f => rfl
  | _ => simp [JsVal.isObject] at h

/-- Restoring an object snapshot over the declared state merges property by
property. -/
theorem restoreState_obj (d : JsVal) (hd : d.isObject = true) (f : String → Option JsVal) :
    restoreState d (obj f) =
      obj (fun k => mergeProperty (d.propertyIsUnsafe k) (d.own k) (f k)) := by
  simp [restoreState, JsVal.typeofObject, JsVal.isNull, deepmerge,
    isArray_of_isObject d hd]

/-! ## C9: the registered modules -/

/-- C9: the store registers exactly the eight modules `user`, `users`, `alerts`,
`agents`, `datasets`, `workflows`, `submissions` and `notifications`; the names are
pairwise distinct and none is `csrfToken`, so that in the declared state the root
token and every module's state are each found under their own name. -/
theorem modules_registered_distinct (mods : Modules) :
    mods.entries.map Prod.fst = moduleNames ∧
    moduleNames.length = 8 ∧
    moduleNames.Nodup ∧
    "csrfToken" ∉ moduleNames ∧
    (∀ jar name,
      (declaredState jar name mods).own "csrfToken" = some (Cookies.get jar name)) ∧
    (∀ jar name n m, (n, m) ∈ mods.entries →
      (declaredState jar name mods).own n = some m.state) := by
  refine ⟨rfl, rfl, by decide, by decide, ?_, ?_⟩
  · intro jar name
    exact declaredState_own_csrfToken jar name mods
  · intro jar name n m h
    exact own_installModules_of_mem _ (by rw [entries_names]; decide) _
      (by rfl : (state jar name).isObject = true) n m h

/-! ## C10 and C1: where the value of the getter comes from -/

/-- C10: when session storage holds a snapshot object with a `csrfToken` property,
the getter of the newly constructed store returns the snapshot's value, whatever
the cookies are. -/
theorem csrfToken_from_snapshot (env : Env) (s : Store) (f : String → Option JsVal)
    (v : JsVal) (h : store env = Except.ok s)
    (hsnap : env.sessionStorage persistKey = some (Cell.json (obj f)))
    (hkey : f "csrfToken" = some v) : csrfToken s = v := by
  obtain ⟨_, _, hstate, _⟩ := construct_ok env s h
  have hsaved : getState persistKey env.sessionStorage = obj f := by
    simp [getState, hsnap]
  rw [hsaved, restoreState_obj _ (declaredState_isObject _ _ _)] at hstate
  have hown : s.state.own "csrfToken" =
      mergeProperty false (some (Cookies.get env.cookies env.xsrfCookieName)) (some v) := by
    rw [hstate]
    show mergeProperty ((declaredState _ _ _).propertyIsUnsafe "csrfToken")
      ((declaredState _ _ _).own "csrfToken") (f "csrfToken") = _
    rw [propertyIsUnsafe_of_own _ _ _ (declaredState_own_csrfToken _ _ _),
      declaredState_own_csrfToken, hkey]
  simp only [csrfToken, JsVal.prop, hown, mergeProperty_some_some]
  by_cases hm : v.isMergeable = true
  · simp [hm, deepmerge_of_not_isMergeable _ v (cookie_isMergeable _ _) hm]
  · simp [hm]

/-- Witness for C10: the cookie is `abc`, the snapshot says `old`, the getter
returns `old`. -/
theorem csrfToken_from_snapshot_witness :
    csrfToken (initialStore
      (Sample.env (Sample.storageWith (Cell.json (ofFields [("csrfToken", str "old")]))))
      (Sample.storageWith (Cell.json (ofFields [("csrfToken", str "old")])))) = str "old" :=
  csrfToken_from_snapshot
    (Sample.env (Sample.storageWith (Cell.json (ofFields [("csrfToken", str "old")]))))
    _ (fun k => [("csrfToken", str "old")].lookup k) (str "old")
    (construct_eq_of_clean _ rfl rfl) rfl rfl

/-- C1, counterexample: the cookie `csrftoken` is `abc` and is the configured CSRF
cookie, construction succeeds, and the getter does not return `abc`, because
session storage holds a snapshot whose `csrfToken` is `old`. -/
theorem csrfToken_not_cookie_when_snapshot :
    store (Sample.env
        (Sample.storageWith (Cell.json (ofFields [("csrfToken", str "old")])))) =
      Except.ok (initialStore
        (Sample.env (Sample.storageWith (Cell.json (ofFields [("csrfToken", str "old")]))))
        (Sample.storageWith (Cell.json (ofFields [("csrfToken", str "old")])))) ∧
    List.lookup "csrftoken" [("csrftoken", "abc")] = some "abc" ∧
    csrfToken (initialStore
        (Sample.env (Sample.storageWith (Cell.json (ofFields [("csrfToken", str "old")]))))
        (Sample.storageWith (Cell.json (ofFields [("csrfToken", str "old")])))) ≠
      str "abc" := by
  refine ⟨construct_eq_of_clean _ rfl rfl, rfl, ?_⟩
  have h : csrfToken (initialStore
        (Sample.env (Sample.storageWith (Cell.json (ofFields [("csrfToken", str "old")]))))
        (Sample.storageWith (Cell.json (ofFields [("csrfToken", str "old")])))) =
      str "old" := rfl
  rw [h]
  intro hne
  injection hne with hs
  exact absurd hs (by decide)

/-- C1, amended: when session storage accepts the probe write of the plugin and
holds no array and no snapshot with a `csrfToken` property, construction succeeds
and the getter returns what `Cookies.get` returns for the configured name: the
value of the cookie when it is present, `undefined` when it is absent. -/
theorem csrfToken_from_cookie (env : Env) (hprobe : env.probeAccepted = true)
    (hsnap : snapshotSetsToken (getState persistKey env.sessionStorage) = false) :
    ∃ s, store env = Except.ok s ∧
      (∀ v, env.cookies.lookup env.xsrfCookieName = some v → csrfToken s = str v) ∧
      (env.cookies.lookup env.xsrfCookieName = none → csrfToken s = undefined) := by
  obtain ⟨s, hs⟩ := construct_of_probe env hprobe
  obtain ⟨_, _, hstate, _⟩ := construct_ok env s hs
  have hown : s.state.own "csrfToken" =
      some (Cookies.get env.cookies env.xsrfCookieName) := by
    rw [hstate]
    cases hsaved : getState persistKey env.sessionStorage with
    | obj f =>
      rw [hsaved] at hsnap
      rw [restoreState_obj _ (declaredState_isObject _ _ _)]
      show mergeProperty _ ((declaredState _ _ _).own "csrfToken") (f "csrfToken") = _
      have hf : f "csrfToken" = none := by
        simpa [snapshotSetsToken] using hsnap
      rw [declaredState_own_csrfToken, hf, mergeProperty_none_right]
    | arr xs => rw [hsaved] at hsnap; simp [snapshotSetsToken] at hsnap
    | undefined => exact declaredState_own_csrfToken _ _ _
    | null => exact declaredState_own_csrfToken _ _ _
    | bool b => exact declaredState_own_csrfToken _ _ _
    | num n => exact declaredState_own_csrfToken _ _ _
    | str t => exact declaredState_own_csrfToken _ _ _
  refine ⟨s, hs, ?_, ?_⟩
  · intro v hv
    simp [csrfToken, JsVal.prop, hown, Cookies.get, hv]
  · intro hv
    simp [csrfToken, JsVal.prop, hown, Cookies.get, hv]

/-- Witness for C1 (amended): an empty session storage and the cookie
`csrftoken=abc`. -/
theorem csrfToken_from_cookie_witness :
    ∃ s, store (Sample.env Sample.emptyStorage) = Except.ok s ∧
      (∀ v, List.lookup "csrftoken" [("csrftoken", "abc")] = some v →
        csrfToken s = str v) ∧
      (List.lookup "csrftoken" [("csrftoken", "abc")] = none →
        csrfToken s = undefined) :=
  csrfToken_from_cookie (Sample.env Sample.emptyStorage) rfl rfl

/-! ## Commits: C3, C5, C6, C8 -/

theorem own_writeBack_of_ne (k owner : String) (st after : JsVal) (h : k ≠ owner) :
    (writeBack st owner after).own k = st.own k := by
  unfold writeBack
  split
  · exact own_set_of_ne k owner _ _ h
  · exact own_set_of_ne k owner _ _ h
  · rfl

theorem own_runHandlers_of_not_owner (payload : JsVal) (k : String) (l : List Registered)
    (st : JsVal) (h : ∀ r ∈ l, r.owner ≠ k) :
    (runHandlers payload l st).1.own k = st.own k := by
  induction l generalizing st with
  | nil => rfl
  | cons r l ih =>
    have hr : k ≠ r.owner := fun hk => h r (List.mem_cons_self _ _) hk.symm
    simp only [runHandlers]
    split
    · exact own_writeBack_of_ne k r.owner _ _ hr
    · rw [ih _ (fun r1 hr1 => h r1 (List.mem_cons_of_mem _ hr1))]
      exact own_writeBack_of_ne k r.owner _ _ hr

theorem commit_state (accepts : Bool) (s : Store) (type : String) (payload : JsVal) :
    (commit accepts s type payload).1.state =
      (runHandlers payload (s.entry type) s.state).1 := by
  unfold commit
  cases hE : s.entry type with
  | nil => rfl
  | cons r rest =>
    simp only []
    cases hR : runHandlers payload (r :: rest) s.state with
    | mk st1 thrown =>
      cases thrown with
      | some e => rfl
      | none => cases accepts <;> simp [Storage.setItem]

theorem commit_mutations (accepts : Bool) (s : Store) (type : String) (payload : JsVal) :
    (commit accepts s type payload).1.mutations = s.mutations := by
  unfold commit
  cases hE : s.entry type with
  | nil => rfl
  | cons r rest =>
    simp only []
    cases hR : runHandlers payload (r :: rest) s.state with
    | mk st1 thrown =>
      cases thrown with
      | some e => rfl
      | none => cases accepts <;> simp [Storage.setItem]

/-- A commit that throws leaves session storage as it was. -/
theorem commit_storage_of_thrown (accepts : Bool) (s : Store) (type : String)
    (payload : JsVal) (h : (commit accepts s type payload).2 ≠ none) :
    (commit accepts s type payload).1.storage = s.storage := by
  unfold commit at h ⊢
  cases hE : s.entry type with
  | nil => rfl
  | cons r rest =>
    simp only [hE] at h ⊢
    cases hR : runHandlers payload (r :: rest) s.state with
    | mk st1 thrown =>
      cases thrown with
      | some e => rfl
      | none =>
        cases accepts with
        | false => simp [Storage.setItem]
        | true => simp [hR, Storage.setItem] at h

/-- The error a commit of a registered type throws when the write is refused. -/
theorem commit_refused_thrown (s : Store) (type : String) (payload : JsVal)
    (hreg : s.entry type ≠ []) :
    (commit false s type payload).2 =
      some ((runHandlers payload (s.entry type) s.state).2.getD JsError.quotaExceeded) := by
  unfold commit
  cases hE : s.entry type with
  | nil => exact absurd hE hreg
  | cons r rest =>
    simp only []
    cases hR : runHandlers payload (r :: rest) s.state with
    | mk st1 thrown =>
      cases thrown with
      | some e => rfl
      | none => simp [Storage.setItem]

/-- A commit of a registered type whose handlers return, with the write accepted. -/
theorem commit_accepted (s : Store) (type : String) (payload : JsVal)
    (hreg : s.entry type ≠ [])
    (hret : (runHandlers payload (s.entry type) s.state).2 = none) :
    (commit true s type payload).2 = none ∧
    (commit true s type payload).1.storage persistKey =
      some (JSON.stringify (commit true s type payload).1.state) := by
  unfold commit
  cases hE : s.entry type with
  | nil => exact absurd hE hreg
  | cons r rest =>
    rw [hE] at hret
    simp only []
    cases hR : runHandlers payload (r :: rest) s.state with
    | mk st1 thrown =>
      rw [hR] at hret
      simp only at hret
      subst hret
      simp [Storage.setItem]

theorem entry_subset (s : Store) (type : String) (r : Registered) (h : r ∈ s.entry type) :
    r ∈ s.mutations :=
  (List.mem_filter.1 h).1

theorem entry_type (s : Store) (type : String) (r : Registered) (h : r ∈ s.entry type) :
    r.type = type := by
  have := (List.mem_filter.1 h).2
  simpa using this

theorem owner_moduleMutations (n : String) (m : Module) (r : Registered)
    (h : r ∈ moduleMutations n m) : r.owner = n := by
  simp only [moduleMutations, List.mem_map] at h
  obtain ⟨kh, _, rfl⟩ := h
  rfl

theorem owner_registerMutations (l : List (String × Module)) (r : Registered)
    (h : r ∈ registerMutations l) : r.owner ∈ l.map Prod.fst := by
  induction l with
  | nil => simp [registerMutations] at h
  | cons a l ih =>
    obtain ⟨n, m⟩ := a
    simp only [registerMutations, List.mem_append] at h
    rcases h with h | h
    · simp [owner_moduleMutations n m r h]
    · exact List.mem_cons_of_mem _ (ih h)

/-- Every mutation of a constructed store is owned by one of the eight modules. -/
theorem owner_of_constructed (env : Env) (s : Store) (h : store env = Except.ok s)
    (r : Registered) (hr : r ∈ s.mutations) : r.owner ∈ moduleNames := by
  obtain ⟨_, hm, _, _⟩ := construct_ok env s h
  rw [hm] at hr
  have := owner_registerMutations _ r hr
  rwa [entries_names] at this

theorem csrfToken_commitAll (cs : List Commit) (s : Store)
    (h : ∀ r ∈ s.mutations, r.owner ≠ "csrfToken") :
    csrfToken (commitAll cs s) = csrfToken s := by
  induction cs generalizing s with
  | nil => rfl
  | cons c cs ih =>
    simp only [commitAll]
    rw [ih _ (by rw [commit_mutations]; exact h)]
    simp only [csrfToken, JsVal.prop, commit_state]
    rw [own_runHandlers_of_not_owner _ _ _ _
      (fun r hr => h r (entry_subset s c.type r hr))]

/-- A commit leaves alone the sub-state of every module that has no handler under the
committed type, and every other property of the root. -/
theorem commit_own_of_not_owner (accepts : Bool) (s : Store) (type : String)
    (payload : JsVal) (k : String) (h : ∀ r ∈ s.entry type, r.owner ≠ k) :
    (commit accepts s type payload).1.state.own k = s.state.own k := by
  rw [commit_state]
  exact own_runHandlers_of_not_owner _ _ _ _ h

/-! ### Namespaced mutation types -/

/-- Two lists that continue with the same separator after parts free of it have the
same first part. -/
theorem part_before_separator (c : Char) (xs ys r1 r2 : List Char)
    (hx : c ∉ xs) (hy : c ∉ ys) (h : xs ++ c :: r1 = ys ++ c :: r2) : xs = ys := by
  induction xs generalizing ys with
  | nil =>
    cases ys with
    | nil => rfl
    | cons y ys =>
      simp only [List.nil_append, List.cons_append, List.cons.injEq] at h
      exact absurd (h.1 ▸ List.mem_cons_self _ _) hy
  | cons x xs ih =>
    cases ys with
    | nil =>
      simp only [List.nil_append, List.cons_append, List.cons.injEq] at h
      exact absurd (h.1 ▸ List.mem_cons_self _ _) hx
    | cons y ys =>
      simp only [List.cons_append, List.cons.injEq] at h
      rw [h.1, ih ys (fun hm => hx (List.mem_cons_of_mem _ hm))
        (fun hm => hy (List.mem_cons_of_mem _ hm)) h.2]

theorem slash_not_in_moduleName (n : String) (h : n ∈ moduleNames) : '/' ∉ n.data := by
  simp only [moduleNames, List.mem_cons, List.mem_singleton, List.not_mem_nil, or_false] at h
  rcases h with h | h | h | h | h | h | h | h <;> subst h <;> decide

/-- A namespaced type names its module. -/
theorem moduleName_of_type (a b k1 k2 : String) (ha : a ∈ moduleNames)
    (hb : b ∈ moduleNames) (h : a ++ "/" ++ k1 = b ++ "/" ++ k2) : a = b := by
  apply String.ext
  have hd := congrArg String.data h
  simp only [String.data_append, List.append_assoc] at hd
  exact part_before_separator '/' a.data b.data k1.data k2.data
    (slash_not_in_moduleName a ha) (slash_not_in_moduleName b hb) hd

theorem type_moduleMutations (n : String) (m : Module) (hns : m.namespaced = true)
    (r : Registered) (h : r ∈ moduleMutations n m) : ∃ key, r.type = n ++ "/" ++ key := by
  simp only [moduleMutations, List.mem_map] at h
  obtain ⟨kh, _, rfl⟩ := h
  exact ⟨kh.1, by simp [hns]⟩

theorem type_registerMutations (l : List (String × Module))
    (hns : ∀ nm ∈ l, nm.2.namespaced = true) (r : Registered)
    (h : r ∈ registerMutations l) : ∃ key, r.type = r.owner ++ "/" ++ key := by
  induction l with
  | nil => simp [registerMutations] at h
  | cons a l ih =>
    obtain ⟨n, m⟩ := a
    simp only [registerMutations, List.mem_append] at h
    rcases h with h | h
    · rw [owner_moduleMutations n m r h]
      exact type_moduleMutations n m (hns (n, m) (List.mem_cons_self _ _)) r h
    · exact ih (fun nm hnm => hns nm (List.mem_cons_of_mem _ hnm)) h

/-- In a store constructed from namespaced modules every handler registered under
the type `A/key` belongs to the module `A`. -/
theorem owner_of_namespaced_type (env : Env) (s : Store) (h : store env = Except.ok s)
    (hns : ∀ nm ∈ env.modules.entries, nm.2.namespaced = true)
    (A key : String) (hA : A ∈ moduleNames) (r : Registered)
    (hr : r ∈ s.entry (A ++ "/" ++ key)) : r.owner = A := by
  obtain ⟨_, hm, _, _⟩ := construct_ok env s h
  have hmem := entry_subset s _ r hr
  have htype := entry_type s _ r hr
  have hown := owner_of_constructed env s h r hmem
  rw [hm] at hmem
  obtain ⟨k2, hk2⟩ := type_registerMutations _ hns r hmem
  rw [hk2] at htype
  exact moduleName_of_type r.owner A k2 key hown hA htype

/-! ### C8 -/

/-- C8: after construction the value returned by the getter `csrfToken` never
changes: whatever sequence of commits follows, with writes accepted or refused, the
getter returns what it returned right after construction. -/
theorem csrfToken_constant (env : Env) (s : Store) (h : store env = Except.ok s)
    (cs : List Commit) : csrfToken (commitAll cs s) = csrfToken s := by
  apply csrfToken_commitAll
  intro r hr hk
  have := owner_of_constructed env s h r hr
  rw [hk] at this
  exact absurd this (by decide)

/-- Witness for C8: two commits on the sample store, the second with a refused
write. -/
theorem csrfToken_constant_witness :
    csrfToken (commitAll
        [Commit.mk true "user/setProfile" (str "x"), Commit.mk false "alerts/setAll" (arr [])]
        Sample.fresh) = csrfToken Sample.fresh :=
  csrfToken_constant (Sample.env Sample.emptyStorage) Sample.fresh
    (construct_eq_of_clean _ rfl rfl) _

/-! ### C5 -/

/-- C5, counterexample: on the sample store the mutation `user/setProfile` is
committed while the storage refuses the write.  The state holds the new profile,
and `commit` throws the storage error to its caller. -/
theorem commit_throws_when_write_refused :
    ((commit false Sample.fresh "user/setProfile" (str "x")).1.state.prop "user").prop
        "profile" = str "x" ∧
    (commit false Sample.fresh "user/setProfile" (str "x")).2 =
        some JsError.quotaExceeded :=
  ⟨rfl, rfl⟩

/-- C5, amended: when the write that follows a mutation is refused, the state is
the one the handlers produced, the same as when the write is accepted; session
storage is left as it was; and an error is thrown out of `commit`: the storage
error when the handlers returned (and the exception of the handler when one
threw, in which case no write was attempted). -/
theorem commit_refused_write (s : Store) (type : String) (payload : JsVal)
    (hreg : s.entry type ≠ []) :
    (commit false s type payload).1.state =
        (runHandlers payload (s.entry type) s.state).1 ∧
    (commit false s type payload).1.state = (commit true s type payload).1.state ∧
    (commit false s type payload).1.storage = s.storage ∧
    (commit false s type payload).2 =
        some ((runHandlers payload (s.entry type) s.state).2.getD
          JsError.quotaExceeded) ∧
    ((runHandlers payload (s.entry type) s.state).2 = none →
      (commit false s type payload).2 = some JsError.quotaExceeded) := by
  have hthrown := commit_refused_thrown s type payload hreg
  refine ⟨commit_state _ _ _ _, by rw [commit_state, commit_state], ?_, hthrown, ?_⟩
  · apply commit_storage_of_thrown
    rw [hthrown]
    exact fun h => Option.noConfusion h
  · intro hret
    rw [hthrown, hret]
    rfl

/-- Witness for C5 (amended): the sample store and `user/setProfile`. -/
theorem commit_refused_write_witness :
    (commit false Sample.fresh "user/setProfile" (str "x")).1.state =
        (commit true Sample.fresh "user/setProfile" (str "x")).1.state ∧
    (commit false Sample.fresh "user/setProfile" (str "x")).1.storage =
        Sample.fresh.storage ∧
    (commit false Sample.fresh "user/setProfile" (str "x")).2 =
        some JsError.quotaExceeded :=
  ⟨(commit_refused_write Sample.fresh "user/setProfile" (str "x")
      (fun h => absurd (congrArg List.length h) (by decide))).2.1,
   (commit_refused_write Sample.fresh "user/setProfile" (str "x")
      (fun h => absurd (congrArg List.length h) (by decide))).2.2.1,
   (commit_refused_write Sample.fresh "user/setProfile" (str "x")
      (fun h => absurd (congrArg List.length h) (by decide))).2.2.2.2 rfl⟩

/-! ### C3 -/

/-- C3, counterexample: on the sample store the mutation `user/setProfile` is
committed while the storage refuses the write.  The mutation has been applied, and
session storage holds nothing under the persistence key: not the serialization of
the state after the mutation. -/
theorem storage_stale_when_write_refused :
    Sample.fresh.entry "user/setProfile" ≠ [] ∧
    lookupPath ["user", "profile"]
      (commit false Sample.fresh "user/setProfile" (str "x")).1.state = some (str "x") ∧
    (commit false Sample.fresh "user/setProfile" (str "x")).1.storage persistKey = none ∧
    (commit false Sample.fresh "user/setProfile" (str "x")).1.storage persistKey ≠
      some (JSON.stringify (commit false Sample.fresh "user/setProfile" (str "x")).1.state) := by
  refine ⟨fun h => absurd (congrArg List.length h) (by decide), rfl, rfl, ?_⟩
  have h : (commit false Sample.fresh "user/setProfile" (str "x")).1.storage persistKey =
      none := rfl
  rw [h]
  exact fun h2 => Option.noConfusion h2

/-- C3, amended: for every store and every commit of a registered mutation type,
when the handlers return and session storage accepts the write, `commit` returns
and session storage holds under the persistence key the serialization of the whole
state tree as it is after the mutation (read back, it is the JSON image of that
whole tree); when `commit` throws, because a handler threw or because the write
was refused, session storage is left as it was. -/
theorem storage_after_commit (s : Store) (type : String) (payload : JsVal)
    (hreg : s.entry type ≠ []) :
    ((runHandlers payload (s.entry type) s.state).2 = none →
      (commit true s type payload).2 = none ∧
      (commit true s type payload).1.storage persistKey =
        some (JSON.stringify (commit true s type payload).1.state) ∧
      ((commit true s type payload).1.state.isMergeable = true →
        getState persistKey (commit true s type payload).1.storage =
          jsonImage (commit true s type payload).1.state)) ∧
    (∀ accepts, (commit accepts s type payload).2 ≠ none →
      (commit accepts s type payload).1.storage = s.storage) := by
  refine ⟨fun hret => ?_, fun accepts h => commit_storage_of_thrown accepts s type payload h⟩
  obtain ⟨hnone, hkey⟩ := commit_accepted s type payload hreg hret
  refine ⟨hnone, hkey, fun hm => ?_⟩
  simp only [getState, hkey]
  cases hst : (commit true s type payload).1.state with
  | arr xs => rfl
  | obj f => rfl
  | undefined => rw [hst] at hm; simp [JsVal.isMergeable] at hm
  | null => rw [hst] at hm; simp [JsVal.isMergeable] at hm
  | bool b => rw [hst] at hm; simp [JsVal.isMergeable] at hm
  | num n => rw [hst] at hm; simp [JsVal.isMergeable] at hm
  | str t => rw [hst] at hm; simp [JsVal.isMergeable] at hm

/-- Witness for C3 (amended): the sample store, the mutation `user/setProfile`, a
write that is accepted. -/
theorem storage_after_commit_witness :
    (commit true Sample.fresh "user/setProfile" (str "x")).2 = none ∧
    (commit true Sample.fresh "user/setProfile" (str "x")).1.storage persistKey =
      some (JSON.stringify (commit true Sample.fresh "user/setProfile" (str "x")).1.state) ∧
    ((commit true Sample.fresh "user/setProfile" (str "x")).1.state.isMergeable = true →
      getState persistKey (commit true Sample.fresh "user/setProfile" (str "x")).1.storage =
        jsonImage (commit true Sample.fresh "user/setProfile" (str "x")).1.state) :=
  (storage_after_commit Sample.fresh "user/setProfile" (str "x")
    (fun h => absurd (congrArg List.length h) (by decide))).1 rfl

/-- A handler that throws: session storage holds a snapshot in which `user` is
`null`; in the store constructed over it the handler of `user/setProfile` is given
`null` and throws; `commit` throws that exception, the write being accepted or
not, and session storage keeps the snapshot. -/
theorem commit_throws_when_handler_throws :
    (initialStore
      (Sample.env (Sample.storageWith (Cell.json (ofFields [("user", null)]))))
      (Sample.storageWith (Cell.json (ofFields [("user", null)])))).state.own "user" =
        some null ∧
    (commit true
      (initialStore
        (Sample.env (Sample.storageWith (Cell.json (ofFields [("user", null)]))))
        (Sample.storageWith (Cell.json (ofFields [("user", null)]))))
      "user/setProfile" (str "x")).2 = some (JsError.thrownByHandler "TypeError") ∧
    getState persistKey
      (commit true
        (initialStore
          (Sample.env (Sample.storageWith (Cell.json (ofFields [("user", null)]))))
          (Sample.storageWith (Cell.json (ofFields [("user", null)]))))
        "user/setProfile" (str "x")).1.storage = ofFields [("user", null)] :=
  ⟨rfl, rfl, rfl⟩

/-! ### C6 -/

/-- C6, counterexample: the modules `user` and `users` are not namespaced and both
declare the mutation `reset`.  Committing `reset`, a mutation of `user`, changes the
sub-state stored under `users`. -/
theorem shared_type_changes_other_module :
    store Sample.sharedEnv = Except.ok Sample.shared ∧
    Sample.sharedModules.user.mutations.map Prod.fst = ["reset"] ∧
    lookupPath ["users", "list"] Sample.shared.state = some (arr [str "a"]) ∧
    lookupPath ["users", "list"] (commit true Sample.shared "reset" null).1.state =
      some (arr []) ∧
    (commit true Sample.shared "reset" null).1.state.own "users" ≠
      Sample.shared.state.own "users" := by
  refine ⟨construct_eq_of_clean _ rfl rfl, rfl, rfl, rfl, ?_⟩
  intro h
  have h2 : some (arr []) = some (arr [str "a"]) :=
    congrArg (fun o : Option JsVal => o.bind (lookupPath ["list"])) h
  simp at h2

/-- C6, amended: in a store constructed from namespaced modules, for every pair of
distinct registered modules `A` and `B`, a commit of a mutation of `A` (a type
`A/key`) leaves the sub-state stored under the name of `B` as it was, and leaves
the root `csrfToken` as it was, whether the handlers return or throw and whether
the write is accepted or refused. -/
theorem namespaced_commit_frame (env : Env) (s : Store) (h : store env = Except.ok s)
    (hns : ∀ nm ∈ env.modules.entries, nm.2.namespaced = true)
    (accepts : Bool) (A B key : String) (payload : JsVal)
    (hA : A ∈ moduleNames) (_hB : B ∈ moduleNames) (hAB : A ≠ B) :
    (commit accepts s (A ++ "/" ++ key) payload).1.state.own B = s.state.own B ∧
    csrfToken (commit accepts s (A ++ "/" ++ key) payload).1 = csrfToken s := by
  have hown : ∀ r ∈ s.entry (A ++ "/" ++ key), r.owner = A :=
    fun r hr => owner_of_namespaced_type env s h hns A key hA r hr
  have hAtok : A ≠ "csrfToken" := by
    intro hk
    rw [hk] at hA
    exact absurd hA (by decide)
  refine ⟨?_, ?_⟩
  · exact commit_own_of_not_owner _ _ _ _ _
      (fun r hr hk => hAB ((hown r hr).symm.trans hk))
  · simp only [csrfToken, JsVal.prop]
    rw [commit_own_of_not_owner _ _ _ _ _
      (fun r hr hk => hAtok ((hown r hr).symm.trans hk))]

/-- Witness for C6 (amended): the sample modules are namespaced; `user/setProfile`
changes the profile and leaves the sub-state of `alerts` and the token as they
were. -/
theorem namespaced_commit_frame_witness :
    lookupPath ["user", "profile"]
      (commit true Sample.fresh ("user" ++ "/" ++ "setProfile") (str "x")).1.state =
        some (str "x") ∧
    (commit true Sample.fresh ("user" ++ "/" ++ "setProfile") (str "x")).1.state.own
        "alerts" = Sample.fresh.state.own "alerts" ∧
    csrfToken (commit true Sample.fresh ("user" ++ "/" ++ "setProfile") (str "x")).1 =
        csrfToken Sample.fresh :=
  ⟨rfl,
   namespaced_commit_frame (Sample.env Sample.emptyStorage) Sample.fresh
    (construct_eq_of_clean _ rfl rfl)
    (by
      intro nm hnm
      simp only [Sample.env, Sample.modules, Modules.entries, List.mem_cons,
        List.mem_singleton, List.not_mem_nil, or_false] at hnm
      rcases hnm with h | h | h | h | h | h | h | h <;> subst h <;> rfl)
    true "user" "alerts" "setProfile" (str "x") (by decide) (by decide) (by decide)⟩

/-! ## C7: determinism of construction -/

/-- C7, counterexample: two constructions with the same modules and the same (empty)
session storage, one with the cookie `csrftoken=abc` and one with `csrftoken=def`,
give different root states. -/
theorem construct_depends_on_cookie :
    store (Sample.env Sample.emptyStorage) = Except.ok Sample.fresh ∧
    store (Sample.otherEnv Sample.emptyStorage) =
      Except.ok (initialStore (Sample.otherEnv Sample.emptyStorage) Sample.emptyStorage) ∧
    (Sample.env Sample.emptyStorage).modules =
      (Sample.otherEnv Sample.emptyStorage).modules ∧
    (Sample.env Sample.emptyStorage).sessionStorage =
      (Sample.otherEnv Sample.emptyStorage).sessionStorage ∧
    Sample.fresh.state ≠
      (initialStore (Sample.otherEnv Sample.emptyStorage) Sample.emptyStorage).state := by
  refine ⟨construct_eq_of_clean _ rfl rfl, construct_eq_of_clean _ rfl rfl, rfl, rfl, ?_⟩
  intro h
  have h2 : str "abc" = str "def" := congrArg (JsVal.prop "csrfToken") h
  injection h2 with hs
  exact absurd hs (by decide)

/-- C7, amended: two constructions with the same modules, the same content of
session storage under the persistence key and the same value of the configured
CSRF cookie give identical root states. -/
theorem construct_deterministic (e1 e2 : Env) (s1 s2 : Store)
    (hmods : e1.modules = e2.modules)
    (hsnap : e1.sessionStorage persistKey = e2.sessionStorage persistKey)
    (hcookie : Cookies.get e1.cookies e1.xsrfCookieName =
      Cookies.get e2.cookies e2.xsrfCookieName)
    (h1 : store e1 = Except.ok s1) (h2 : store e2 = Except.ok s2) :
    s1.state = s2.state := by
  obtain ⟨_, _, hs1, _⟩ := construct_ok e1 s1 h1
  obtain ⟨_, _, hs2, _⟩ := construct_ok e2 s2 h2
  rw [hs1, hs2, getState_congr _ _ _ hsnap]
  simp only [declaredState, state, hcookie, hmods]

/-- Witness for C7 (amended): two cookie jars that differ but agree on the CSRF
cookie. -/
theorem construct_deterministic_witness :
    Sample.fresh.state =
      (initialStore (Env.mk [("csrftoken", "abc"), ("theme", "dark")] "csrftoken"
        Sample.modules Sample.emptyStorage true) Sample.emptyStorage).state :=
  construct_deterministic (Sample.env Sample.emptyStorage)
    (Env.mk [("csrftoken", "abc"), ("theme", "dark")] "csrftoken" Sample.modules
      Sample.emptyStorage true)
    _ _ rfl rfl rfl (construct_eq_of_clean _ rfl rfl) (construct_eq_of_clean _ rfl rfl)

/-! ## C2 and C4: restoring a snapshot -/

/-- A value found in the source at a path of names none of which is hidden, and
which is not a plain object, is found at the same path in the merge. -/
theorem lookupPath_deepmerge_leaf (p : List String) (t src v : JsVal)
    (hsafe : ∀ k ∈ p, hiddenProperties.contains k = false)
    (hsrc : src.isMergeable = true) (hp : lookupPath p src = some v)
    (hv : v.isObject = false) : lookupPath p (deepmerge t src) = some v := by
  induction p generalizing t src with
  | nil =>
    simp only [lookupPath, Option.some.injEq] at hp
    subst hp
    cases src <;> simp_all [JsVal.isMergeable, JsVal.isObject, deepmerge, lookupPath]
  | cons k ks ih =>
    have hk0 : hiddenProperties.contains k = false := hsafe k (List.mem_cons_self _ _)
    have hks : ∀ j ∈ ks, hiddenProperties.contains j = false :=
      fun j hj => hsafe j (List.mem_cons_of_mem _ hj)
    cases src with
    | obj f =>
      simp only [lookupPath] at hp
      cases hk : f k with
      | none => simp [hk] at hp
      | some w =>
        simp only [hk] at hp
        by_cases ht : t.isArray = true
        · simp [deepmerge, ht, lookupPath, hk, hp]
        · simp only [deepmerge, ht, lookupPath, hk,
            propertyIsUnsafe_of_not_hidden k t hk0]
          cases hto : t.own k with
          | none => simpa [mergeProperty] using hp
          | some tv =>
            rw [mergeProperty_some_some]
            by_cases hw : w.isMergeable = true
            · simpa [hw] using ih tv w hks hw hp
            · simpa [hw] using hp
    | arr xs => simp [lookupPath] at hp
    | undefined => simp [lookupPath] at hp
    | null => simp [lookupPath] at hp
    | bool b => simp [lookupPath] at hp
    | num n => simp [lookupPath] at hp
    | str s => simp [lookupPath] at hp

theorem isMergeable_of_lookupPath_obj (q : List String) (w : JsVal)
    (g : String → Option JsVal) (h : lookupPath q w = some (obj g)) :
    w.isMergeable = true := by
  cases q with
  | nil =>
    simp only [lookupPath, Option.some.injEq] at h
    subst h
    rfl
  | cons k ks => cases w <;> simp_all [lookupPath, JsVal.isMergeable]

/-- A property absent from an object of the source keeps the value it has in the
target, where the target has an object at the same path. -/
theorem lookupPath_deepmerge_absent (q : List String) (t src : JsVal)
    (g d : String → Option JsVal) (k : String)
    (hsrc : lookupPath q src = some (obj g)) (ht : lookupPath q t = some (obj d))
    (hk : g k = none) :
    lookupPath (q ++ [k]) (deepmerge t src) = lookupPath (q ++ [k]) t := by
  induction q generalizing t src with
  | nil =>
    simp only [lookupPath, Option.some.injEq] at hsrc ht
    subst hsrc ht
    simp [deepmerge, JsVal.isArray, lookupPath, JsVal.own, hk, mergeProperty_none_right]
  | cons j q ih =>
    cases src with
    | obj f =>
      cases t with
      | obj e =>
        simp only [lookupPath] at hsrc ht
        cases hf : f j with
        | none => simp [hf] at hsrc
        | some w =>
          cases he : e j with
          | none => simp [he] at ht
          | some tv =>
            simp only [hf] at hsrc
            simp only [he] at ht
            have hw := isMergeable_of_lookupPath_obj q w g hsrc
            have hu : (obj e).propertyIsUnsafe j = false :=
              propertyIsUnsafe_of_own j (obj e) tv he
            simp only [List.cons_append, deepmerge, JsVal.isArray, lookupPath, JsVal.own,
              hf, he, hu, mergeProperty_some_some, hw, if_true]
            simpa using ih tv w hsrc ht
      | arr xs => simp [lookupPath] at ht
      | undefined => simp [lookupPath] at ht
      | null => simp [lookupPath] at ht
      | bool b => simp [lookupPath] at ht
      | num n => simp [lookupPath] at ht
      | str s => simp [lookupPath] at ht
    | arr xs => simp [lookupPath] at hsrc
    | undefined => simp [lookupPath] at hsrc
    | null => simp [lookupPath] at hsrc
    | bool b => simp [lookupPath] at hsrc
    | num n => simp [lookupPath] at hsrc
    | str s => simp [lookupPath] at hsrc

/-- The value of the source wins when it and the value of the target are not both
plain objects. -/
theorem mergeProperty_of_not_both (t : Option JsVal) (v : JsVal)
    (h : v.isObject = false ∨ ∀ d, t = some d → d.isObject = false) :
    mergeProperty false t (some v) = some v := by
  cases t with
  | none => rfl
  | some d =>
    rw [mergeProperty_some_some]
    by_cases hv : v.isMergeable = true
    · simp only [hv, if_true, Option.some.injEq]
      rcases h with h | h
      · cases v <;> simp_all [JsVal.isObject, JsVal.isMergeable, deepmerge]
      · have hd := h d rfl
        cases d with
        | obj e => simp [JsVal.isObject] at hd
        | arr xs => cases v <;> simp_all [JsVal.isMergeable, deepmerge, JsVal.isArray]
        | undefined => exact deepmerge_of_not_isMergeable _ v rfl hv
        | null => exact deepmerge_of_not_isMergeable _ v rfl hv
        | bool b => exact deepmerge_of_not_isMergeable _ v rfl hv
        | num n => exact deepmerge_of_not_isMergeable _ v rfl hv
        | str x => exact deepmerge_of_not_isMergeable _ v rfl hv
    · simp [hv]

theorem restoreState_of_isMergeable (d saved : JsVal) (h : saved.isMergeable = true) :
    restoreState d saved = deepmerge d saved := by
  cases saved <;> simp_all [restoreState, JsVal.isMergeable, JsVal.typeofObject, JsVal.isNull]

theorem restoreState_of_not_isMergeable (d saved : JsVal) (h : saved.isMergeable = false) :
    restoreState d saved = d := by
  cases saved <;> simp_all [restoreState, JsVal.isMergeable, JsVal.typeofObject, JsVal.isNull]

/-- C2, counterexample: session storage holds the JSON text of an empty array under
the persistence key.  The array has no `csrfToken` property, yet the initial state
does not keep the declared `csrfToken`: the array has replaced the whole tree. -/
theorem array_snapshot_replaces_state :
    store (Sample.env (Sample.storageWith (Cell.json (arr [])))) =
      Except.ok (initialStore (Sample.env (Sample.storageWith (Cell.json (arr []))))
        (Sample.storageWith (Cell.json (arr [])))) ∧
    (getState persistKey (Sample.storageWith (Cell.json (arr [])))).own "csrfToken" = none ∧
    (initialStore (Sample.env (Sample.storageWith (Cell.json (arr []))))
        (Sample.storageWith (Cell.json (arr [])))).state.own "csrfToken" ≠
      (declaredState [("csrftoken", "abc")] "csrftoken" Sample.modules).own "csrfToken" := by
  refine ⟨construct_eq_of_clean _ rfl rfl, rfl, ?_⟩
  have h1 : (initialStore (Sample.env (Sample.storageWith (Cell.json (arr []))))
      (Sample.storageWith (Cell.json (arr [])))).state.own "csrfToken" = none := rfl
  have h2 : (declaredState [("csrftoken", "abc")] "csrftoken" Sample.modules).own
      "csrfToken" = some (str "abc") := rfl
  rw [h1, h2]
  exact fun h => Option.noConfusion h

/-- An object snapshot is merged deeply: the snapshot gives `user` the value of an
object without properties, and the initial state still has the declared
`user.profile`. -/
theorem object_snapshot_value_is_merged :
    (getState persistKey
      (Sample.storageWith (Cell.json (ofFields [("user", ofFields [])])))).own "user" =
        some (ofFields []) ∧
    lookupPath ["user", "profile"]
      (initialStore (Sample.env (Sample.storageWith (Cell.json (ofFields [("user", ofFields [])]))))
        (Sample.storageWith (Cell.json (ofFields [("user", ofFields [])])))).state =
      some null :=
  ⟨rfl, rfl⟩

/-- A snapshot property with a hidden name is skipped: the snapshot has `toString`
at the top and `constructor` under `user`, and the initial state has neither. -/
theorem hidden_snapshot_key_is_skipped :
    (initialStore
      (Sample.env (Sample.storageWith (Cell.json (ofFields
        [("toString", str "x"), ("user", ofFields [("constructor", str "x")])]))))
      (Sample.storageWith (Cell.json (ofFields
        [("toString", str "x"), ("user", ofFields [("constructor", str "x")])])))).state.own
        "toString" = none ∧
    lookupPath ["user", "constructor"]
      (initialStore
        (Sample.env (Sample.storageWith (Cell.json (ofFields
          [("toString", str "x"), ("user", ofFields [("constructor", str "x")])]))))
        (Sample.storageWith (Cell.json (ofFields
          [("toString", str "x"), ("user", ofFields [("constructor", str "x")])])))).state =
      none :=
  ⟨rfl, rfl⟩

/-- C2, amended: the initial state of a constructed store is the declared state
(root `csrfToken` and the state of each module under its name) with the saved
state of session storage merged over it:
* when storage holds nothing, unparsable text or a JSON primitive under the key,
  the initial state is exactly the declared state;
* when it holds an array, the array is the initial state;
* when it holds an object, every top-level key that is absent from it, or that the
  merge skips as unsafe (a hidden name that is not a declared property), keeps its
  declared value; for a key present in it and not skipped the snapshot's value
  wins, unless the snapshot's value and the declared value are both plain objects,
  in which case the two are merged by the same rule: every path of names none of
  which is hidden that leads to a value other than an object in the snapshot holds
  the snapshot's value, and a property absent from an object of the snapshot keeps
  its declared value wherever the declared state has an object at the same
  place. -/
theorem initial_state_is_merge (env : Env) (s : Store) (h : store env = Except.ok s) :
    ((getState persistKey env.sessionStorage).isMergeable = false →
      s.state = declaredState env.cookies env.xsrfCookieName env.modules) ∧
    (∀ xs, getState persistKey env.sessionStorage = arr xs → s.state = arr xs) ∧
    (∀ f, getState persistKey env.sessionStorage = obj f →
      (∀ k, (f k = none ∨
          (declaredState env.cookies env.xsrfCookieName env.modules).propertyIsUnsafe k =
            true) →
        s.state.own k = (declaredState env.cookies env.xsrfCookieName env.modules).own k) ∧
      (∀ k v, f k = some v →
        (declaredState env.cookies env.xsrfCookieName env.modules).propertyIsUnsafe k =
          false →
        (v.isObject = false ∨
          ∀ d, (declaredState env.cookies env.xsrfCookieName env.modules).own k = some d →
            d.isObject = false) →
        s.state.own k = some v) ∧
      (∀ k v d, f k = some v →
        (declaredState env.cookies env.xsrfCookieName env.modules).own k = some d →
        v.isObject = true → d.isObject = true →
        s.state.own k = some (deepmerge d v)) ∧
      (∀ p v, (∀ k ∈ p, hiddenProperties.contains k = false) →
        lookupPath p (obj f) = some v → v.isObject = false →
        lookupPath p s.state = some v) ∧
      (∀ q g d k, lookupPath q (obj f) = some (obj g) →
        lookupPath q (declaredState env.cookies env.xsrfCookieName env.modules) =
          some (obj d) →
        g k = none →
        lookupPath (q ++ [k]) s.state =
          lookupPath (q ++ [k])
            (declaredState env.cookies env.xsrfCookieName env.modules))) := by
  obtain ⟨_, _, hstate, _⟩ := construct_ok env s h
  refine ⟨?_, ?_, ?_⟩
  · intro hno
    rw [hstate, restoreState_of_not_isMergeable _ _ hno]
  · intro xs hxs
    rw [hstate, hxs]
    rfl
  · intro f hf
    rw [hf] at hstate
    have hobj := restoreState_obj _
      (declaredState_isObject env.cookies env.xsrfCookieName env.modules) f
    rw [restoreState_of_isMergeable _ (obj f) rfl] at hstate hobj
    refine ⟨?_, ?_, ?_, ?_, ?_⟩
    · intro k hk
      rw [hstate, hobj]
      show mergeProperty _ _ (f k) = _
      rcases hk with hk | hk
      · rw [hk, mergeProperty_none_right]
      · rw [hk, mergeProperty_skip]
    · intro k v hk hsafe hcase
      rw [hstate, hobj]
      show mergeProperty _ _ (f k) = _
      rw [hk, hsafe]
      exact mergeProperty_of_not_both _ v hcase
    · intro k v d hk hd hv _
      rw [hstate, hobj]
      show mergeProperty _ _ (f k) = _
      rw [hk, hd, propertyIsUnsafe_of_own k _ d hd, mergeProperty_some_some]
      cases v <;> simp_all [JsVal.isObject, JsVal.isMergeable]
    · intro p v hsafe hp hv
      rw [hstate]
      exact lookupPath_deepmerge_leaf p _ _ v hsafe rfl hp hv
    · intro q g d k hq hd hk
      rw [hstate]
      exact lookupPath_deepmerge_absent q _ _ g d k hq hd hk

/-- Witness for C2 (amended): the snapshot holds only `user.profile`; the initial
state has the snapshot's profile and the declared state of `alerts`. -/
theorem initial_state_is_merge_witness :
    lookupPath ["user", "profile"]
      (initialStore (Sample.env (Sample.storageWith (Cell.json Sample.profileSnapshot)))
        (Sample.storageWith (Cell.json Sample.profileSnapshot))).state = some (str "p") ∧
    (initialStore (Sample.env (Sample.storageWith (Cell.json Sample.profileSnapshot)))
        (Sample.storageWith (Cell.json Sample.profileSnapshot))).state.own "alerts" =
      (declaredState [("csrftoken", "abc")] "csrftoken" Sample.modules).own "alerts" :=
  ⟨((initial_state_is_merge
      (Sample.env (Sample.storageWith (Cell.json Sample.profileSnapshot))) _
      (construct_eq_of_clean _ rfl rfl)).2.2 _ rfl).2.2.2.1 ["user", "profile"] (str "p")
      (by decide) rfl rfl,
   ((initial_state_is_merge
      (Sample.env (Sample.storageWith (Cell.json Sample.profileSnapshot))) _
      (construct_eq_of_clean _ rfl rfl)).2.2 _ rfl).1 "alerts" (Or.inl rfl)⟩

theorem jsonField_some (v : JsVal) (h : v ≠ undefined) :
    jsonField (some v) = some (jsonImage v) := by
  cases v <;> simp_all [jsonField]

theorem jsonImage_of_isJsonPrimitive (w : JsVal) (h : w.isJsonPrimitive = true) :
    jsonImage w = w := by
  cases w with
  | num n => cases n <;> simp_all [JsVal.isJsonPrimitive, jsonImage]
  | _ => simp_all [JsVal.isJsonPrimitive, jsonImage]

theorem isMergeable_jsonImage (v : JsVal) : (jsonImage v).isMergeable = v.isMergeable := by
  cases v with
  | num n => cases n <;> simp [jsonImage, JsVal.isMergeable]
  | _ => simp [jsonImage, JsVal.isMergeable]

theorem isObject_jsonImage (v : JsVal) : (jsonImage v).isObject = v.isObject := by
  cases v with
  | num n => cases n <;> simp [jsonImage, JsVal.isObject]
  | _ => simp [jsonImage, JsVal.isObject]

theorem stringify_of_isMergeable (v : JsVal) (h : v.isMergeable = true) :
    JSON.stringify v = Cell.json (jsonImage v) := by
  cases v <;> simp_all [JSON.stringify, JsVal.isMergeable]

/-- Serialization keeps every path that leads to a value other than `undefined`. -/
theorem lookupPath_jsonImage (p : List String) (st w : JsVal)
    (hp : lookupPath p st = some w) (hw : w ≠ undefined) :
    lookupPath p (jsonImage st) = some (jsonImage w) := by
  induction p generalizing st with
  | nil =>
    simp only [lookupPath, Option.some.injEq] at hp
    subst hp
    rfl
  | cons k ks ih =>
    cases st with
    | obj f =>
      simp only [lookupPath] at hp
      cases hk : f k with
      | none => simp [hk] at hp
      | some v =>
        simp only [hk] at hp
        have hv : v ≠ undefined := by
          intro hv
          subst hv
          cases ks with
          | nil =>
            simp only [lookupPath, Option.some.injEq] at hp
            exact hw hp.symm
          | cons j js => simp [lookupPath] at hp
        simp only [jsonImage, lookupPath, hk, jsonField_some v hv]
        exact ih v hp
    | arr xs => simp [lookupPath] at hp
    | undefined => simp [lookupPath] at hp
    | null => simp [lookupPath] at hp
    | bool b => simp [lookupPath] at hp
    | num n => simp [lookupPath] at hp
    | str s => simp [lookupPath] at hp

/-- C4, counterexample: the sample store commits a list whose element is
`undefined`; the plugin writes the state to session storage; a store constructed
over that storage finds `alerts` in the snapshot, and its root state holds under
`alerts` another value than the state that was serialized. -/
theorem reload_changes_undefined_element :
    Sample.afterAlert.storage persistKey =
      some (JSON.stringify Sample.afterAlert.state) ∧
    store (Sample.env Sample.afterAlert.storage) =
      Except.ok (initialStore (Sample.env Sample.afterAlert.storage)
        Sample.afterAlert.storage) ∧
    lookupPath ["alerts", "alerts"] (getState persistKey Sample.afterAlert.storage) =
      some (arr [null]) ∧
    lookupPath ["alerts", "alerts"] Sample.afterAlert.state = some (arr [undefined]) ∧
    lookupPath ["alerts", "alerts"]
      (initialStore (Sample.env Sample.afterAlert.storage)
        Sample.afterAlert.storage).state = some (arr [null]) ∧
    (initialStore (Sample.env Sample.afterAlert.storage)
        Sample.afterAlert.storage).state.own "alerts" ≠
      Sample.afterAlert.state.own "alerts" := by
  refine ⟨rfl, construct_eq_of_clean _ rfl rfl, rfl, rfl, rfl, ?_⟩
  intro h
  have h2 : some (arr [null]) = some (arr [undefined]) :=
    congrArg (fun o : Option JsVal => o.bind (lookupPath ["alerts"])) h
  simp at h2

/-- Numbers that JSON cannot write do not come back: a state whose profile is NaN is
serialized with `null` in its place, and that is what a new store holds. -/
theorem reload_changes_nan :
    lookupPath ["user", "profile"]
      (commit true Sample.fresh "user/setProfile" (num JsNum.nan)).1.state =
        some (num JsNum.nan) ∧
    lookupPath ["user", "profile"]
      (initialStore
        (Sample.env (commit true Sample.fresh "user/setProfile" (num JsNum.nan)).1.storage)
        (commit true Sample.fresh "user/setProfile" (num JsNum.nan)).1.storage).state =
      some null :=
  ⟨rfl, rfl⟩

/-- C4, amended: session storage holds the serialization of a state tree `st` and a
new store is constructed.  At every property path of names none of which is hidden
at which `st` holds a string, a boolean, `null` or a finite number other than
negative zero, the root state of the new store holds the same value; at every such
path at which `st` holds an array, it holds the JSON image of the array. -/
theorem restore_after_persist (env : Env) (st : JsVal) (s : Store)
    (hroot : st.isMergeable = true)
    (hseed : env.sessionStorage persistKey = some (JSON.stringify st))
    (h : store env = Except.ok s) (p : List String) (w : JsVal)
    (hsafe : ∀ k ∈ p, hiddenProperties.contains k = false)
    (hp : lookupPath p st = some w) :
    (w.isJsonPrimitive = true → lookupPath p s.state = some w) ∧
    (w.isArray = true → lookupPath p s.state = some (jsonImage w)) := by
  obtain ⟨_, _, hstate, _⟩ := construct_ok env s h
  have hsaved : getState persistKey env.sessionStorage = jsonImage st := by
    simp [getState, hseed, stringify_of_isMergeable st hroot]
  have hm : (jsonImage st).isMergeable = true := by
    rw [isMergeable_jsonImage]; exact hroot
  rw [hsaved, restoreState_of_isMergeable _ _ hm] at hstate
  have key : w ≠ undefined → w.isObject = false →
      lookupPath p s.state = some (jsonImage w) := by
    intro hw hno
    rw [hstate]
    exact lookupPath_deepmerge_leaf p _ _ _ hsafe hm (lookupPath_jsonImage p st w hp hw)
      (by rw [isObject_jsonImage]; exact hno)
  refine ⟨?_, ?_⟩
  · intro hprim
    have hkey := key
    rw [jsonImage_of_isJsonPrimitive w hprim] at hkey
    apply hkey
    · intro hu; subst hu; simp [JsVal.isJsonPrimitive] at hprim
    · cases w <;> simp_all [JsVal.isJsonPrimitive, JsVal.isObject]
  · intro harr
    apply key
    · intro hu; subst hu; simp [JsVal.isArray] at harr
    · cases w <;> simp_all [JsVal.isArray, JsVal.isObject]

/-- Witness for C4 (amended): the sample store commits a profile; a store
constructed over the storage written by that commit holds the same profile. -/
theorem restore_after_persist_witness :
    lookupPath ["user", "profile"]
      (commit true Sample.fresh "user/setProfile" (str "x")).1.state = some (str "x") ∧
    lookupPath ["user", "profile"]
      (initialStore
        (Sample.env (commit true Sample.fresh "user/setProfile" (str "x")).1.storage)
        (commit true Sample.fresh "user/setProfile" (str "x")).1.storage).state =
      some (str "x") :=
  ⟨rfl,
   (restore_after_persist
      (Sample.env (commit true Sample.fresh "user/setProfile" (str "x")).1.storage)
      (commit true Sample.fresh "user/setProfile" (str "x")).1.state _ rfl rfl
      (construct_eq_of_clean _ rfl rfl) ["user", "profile"] (str "x") (by decide) rfl).1 rfl⟩

end Plantit
